import Mathlib

/-!
Verification development for a small user-management REST API
(Express + Mongoose + multer).  The relevant JavaScript is shallowly
embedded as executable Lean definitions:

* `src/models/User.js`      → `UserDoc`, `preSaveHook`, field metadata;
* `src/middleware/upload.js`→ `fileFilterAccepts`, `multerSingle`;
* `src/routes/user.js`      → `createHandler`, `editHandler`,
  `deleteHandler`, `getAllHandler`, `uploadImageHandler`.

The database is modelled as a `List UserDoc`; each handler is a pure
function from a request and a store to a response and the new store.
The bcrypt hash is an external primitive and is passed in as an abstract
function `hash : String → String` (bcrypt's per-call salting is not
modelled; claims about hashed values are stated up to this function).
-/

namespace UserApi

/-! ### String helpers (substring test, used for regex tests and `String.includes`) -/

/-- `beginsWith pat cs` holds when `pat` is an initial segment of `cs`. -/
def beginsWith : List Char → List Char → Bool
  | [], _ => true
  | _ :: _, [] => false
  | p :: ps, c :: cs => (p == c) && beginsWith ps cs

/-- `charsInclude pat cs`: `pat` occurs as a contiguous run inside `cs`. -/
def charsInclude (pat : List Char) : List Char → Bool
  | [] => beginsWith pat []
  | c :: cs => beginsWith pat (c :: cs) || charsInclude pat cs

/-- JavaScript `s.includes(pat)`; also used for regex tests of the form
`/jpeg|jpg|png|gif/.test(s)`, which are substring tests. -/
def strIncludes (s pat : String) : Bool := charsInclude pat.toList s.toList

/-- Splits a character list at every occurrence of `c` (occurrences removed). -/
def splitOnChar (c : Char) : List Char → List (List Char)
  | [] => [[]]
  | x :: xs =>
    match splitOnChar c xs, decide (x = c) with
    | r, true => [] :: r
    | [], false => [[x]]
    | g :: gs, false => (x :: g) :: gs

/-! ### Validators (as configured in `src/routes/user.js`) -/

/-- One character of `[^\s@]`: not whitespace and not `@`. -/
def emailChar (c : Char) : Bool := !c.isWhitespace && c != '@'

/-- Nonempty run of `[^\s@]` characters. -/
def emailPart (cs : List Char) : Bool := !cs.isEmpty && cs.all emailChar

/-- Modelled from the spec: the external library validator behind
`check("email").isEmail()` is not in the repository; it is modelled by the
email-shape regexp the repository itself declares on the schema
(`/^[^\s@]+@[^\s@]+\.[^\s@]+$/` in `src/models/User.js`): a nonempty local
part, one `@`, and a domain containing an interior dot, all free of
whitespace and further `@`. -/
def isEmailShape (s : String) : Bool :=
  match splitOnChar '@' s.toList with
  | [loc, dom] => emailPart loc && emailPart dom && ((dom.drop 1).dropLast.contains '.')
  | _ => false

/-- Modelled from the spec: the `normalizeEmail()` sanitizer "normalized
(lowercase, canonical form) before use" is modelled as ASCII lowercasing of
the whole address. -/
def normalizeEmail (s : String) : String := ⟨s.toList.map Char.toLower⟩

/-- The `fullName` rule `/^[A-Za-z\s]+$/`: nonempty, letters and whitespace only. -/
def fullNameMatches (s : String) : Bool :=
  !s.isEmpty && s.toList.all (fun c => c.isAlpha || c.isWhitespace)

/-- Options passed to `isStrongPassword` in both the create and the edit route. -/
structure PwOptions where
  minLength : Nat
  minLowercase : Nat
  minUppercase : Nat
  minNumbers : Nat
  minSymbols : Nat
deriving DecidableEq

/-- `{ minLength: 8, minUppercase: 1, minLowercase: 1, minNumbers: 1, minSymbols: 1 }`. -/
def pwOptions : PwOptions := ⟨8, 1, 1, 1, 1⟩

/-- Modelled from the spec: the symbol class of the external
`isStrongPassword` analyzer (its documented symbol set: punctuation,
brackets, quotes, backslash and space). -/
def isPwSymbol (c : Char) : Bool :=
  ['-', '#', '!', '$', '@', Char.ofNat 163, '%', '^', '&', '*', '(', ')',
   '_', '+', '|', '~', '=', Char.ofNat 96, Char.ofNat 123, Char.ofNat 125,
   '[', ']', ':', Char.ofNat 34, ';', Char.ofNat 39, '<', '>', '?', ',',
   '.', '/', '\\', ' '].contains c

/-- Number of characters of `s` in class `p`. -/
def countClass (p : Char → Bool) (s : String) : Nat := (s.toList.filter p).length

/-- Modelled from the spec: the external `isStrongPassword` counts the
characters of each class and compares every count with its minimum. -/
def isStrongPassword (o : PwOptions) (s : String) : Bool :=
  decide (o.minLength ≤ s.length) &&
  decide (o.minLowercase ≤ countClass Char.isLower s) &&
  decide (o.minUppercase ≤ countClass Char.isUpper s) &&
  decide (o.minNumbers ≤ countClass Char.isDigit s) &&
  decide (o.minSymbols ≤ countClass isPwSymbol s)

/-! ### The User model (`src/models/User.js`) -/

/-- A persisted user document. `imagePath` defaults to `null` (`none`). -/
structure UserDoc where
  fullName : String
  email : String
  password : String
  imagePath : Option String
deriving DecidableEq

/-- The schema's field names, in declaration order. -/
def schemaFields : List String := ["fullName", "email", "password", "imagePath"]

/-- Whether a schema field is selected by default queries: `password` is
declared with `select: false`, every other field is selected. -/
def fieldSelectByDefault (f : String) : Bool := f != "password"

/-- `userSchema.pre('save')`: when the password path is modified, the stored
value is replaced by its bcrypt hash before commit. -/
def preSaveHook (hash : String → String) (passwordModified : Bool) (u : UserDoc) : UserDoc :=
  if passwordModified then { u with password := hash u.password } else u

/-- `findOne({ email })`: first stored document with the given email. -/
def findOne (db : List UserDoc) (email : String) : Option UserDoc :=
  db.find? (fun v => v.email == email)

/-- Saving a brand-new document (`new User(...).save()`): on a new document
every path, the password included, counts as modified, so the pre-save hook
hashes; the document is inserted. -/
def saveNewUser (hash : String → String) (db : List UserDoc) (u : UserDoc) : List UserDoc :=
  db ++ [preSaveHook hash true u]

/-- Replaces the first document whose email is `key` (the document identity
in this model) with `u`. -/
def replaceFirst (db : List UserDoc) (key : String) (u : UserDoc) : List UserDoc :=
  match db with
  | [] => []
  | v :: rest => if v.email == key then u :: rest else v :: replaceFirst rest key u

/-- Saving a fetched document (`doc.save()`): the pre-save hook runs with the
dirty state of the password path, then the document is written back. -/
def saveExistingUser (hash : String → String) (db : List UserDoc) (key : String)
    (passwordModified : Bool) (u : UserDoc) : List UserDoc :=
  replaceFirst db key (preSaveHook hash passwordModified u)

/-- `existingUser.deleteOne()`: removes the first document with that email. -/
def eraseFirst (db : List UserDoc) (key : String) : List UserDoc :=
  match db with
  | [] => []
  | v :: rest => if v.email == key then rest else v :: eraseFirst rest key

/-! ### Responses -/

/-- An HTTP response: status code and the message/error string of its JSON body. -/
structure Response where
  status : Nat
  body : String
deriving DecidableEq

/-! ### Route handlers (`src/routes/user.js`) -/

/-- Body of a create request. -/
structure CreateRequest where
  email : String
  fullName : String
  password : String
deriving DecidableEq

/-- The create route's validator chain:
`check("email").isEmail().normalizeEmail()`, `check("fullName").matches(...)`,
`check("password").isStrongPassword({...})`. -/
def createValidationPasses (r : CreateRequest) : Bool :=
  isEmailShape r.email && fullNameMatches r.fullName && isStrongPassword pwOptions r.password

/-- `POST /create`: validate; reject a registered email; hash once in the
handler; save (the pre-save hook hashes the already-hashed value again,
because a new document's password path is modified). -/
def createHandler (hash : String → String) (r : CreateRequest) (db : List UserDoc) :
    Response × List UserDoc :=
  if !createValidationPasses r then (⟨400, "Validation failed"⟩, db)
  else
    let email := normalizeEmail r.email
    match findOne db email with
    | some _ => (⟨400, "Email already registered"⟩, db)
    | none =>
      let hashedPassword := hash r.password
      let newUser : UserDoc := ⟨r.fullName, email, hashedPassword, none⟩
      (⟨201, "User created successfully"⟩, saveNewUser hash db newUser)

/-- Body of an edit request. -/
structure EditRequest where
  email : String
  fullName : String
  password : String
deriving DecidableEq

/-- The edit route declares validators for `fullName` and `password` only:
the email is neither validated nor normalized. -/
def editValidationPasses (r : EditRequest) : Bool :=
  fullNameMatches r.fullName && isStrongPassword pwOptions r.password

/-- `PUT /edit`: validate; look the user up by the submitted email verbatim;
404 when absent; otherwise overwrite fullName, assign the handler-hashed
password and save.  The fetched document carries no password value
(`select: false` on the schema), so the assignment always marks the password
path modified and the pre-save hook hashes the assigned hash again. -/
def editHandler (hash : String → String) (r : EditRequest) (db : List UserDoc) :
    Response × List UserDoc :=
  if !editValidationPasses r then (⟨400, "Validation failed"⟩, db)
  else
    match findOne db r.email with
    | none => (⟨404, "User not found"⟩, db)
    | some existingUser =>
      let hashedPassword := hash r.password
      let updated := { existingUser with fullName := r.fullName, password := hashedPassword }
      (⟨200, "User updated successfully."⟩, saveExistingUser hash db r.email true updated)

/-- Body of a delete request. -/
structure DeleteRequest where
  email : String
deriving DecidableEq

/-- The delete route's validator chain: `check("email").isEmail().normalizeEmail()`. -/
def deleteValidationPasses (r : DeleteRequest) : Bool := isEmailShape r.email

/-- `DELETE /delete`: validate and normalize the email; 404 when absent;
otherwise remove the document. -/
def deleteHandler (r : DeleteRequest) (db : List UserDoc) : Response × List UserDoc :=
  if !deleteValidationPasses r then (⟨400, "Validation failed"⟩, db)
  else
    let email := normalizeEmail r.email
    match findOne db email with
    | none => (⟨404, "User not found"⟩, db)
    | some existingUser => (⟨200, "User deletion successful."⟩, eraseFirst db existingUser.email)

/-- A user as returned by a projected query: absent fields are `none`. -/
structure ProjectedUser where
  fullName : Option String
  email : Option String
  password : Option String
  imagePath : Option String
deriving DecidableEq

/-- The getAll projection string, split on spaces as the store does
(empty fragments from the trailing space are dropped). -/
def getAllFields : List String :=
  ((splitOnChar ' ' "fullName email password ".toList).map
    (fun cs => (⟨cs⟩ : String))).filter (fun f => f != "")

/-- `find(filter, fields)` with an explicit inclusion projection: a field is
returned iff it is named in the projection (naming a field overrides its
`select: false` default). -/
def projectUser (fields : List String) (u : UserDoc) : ProjectedUser :=
  ⟨if fields.contains "fullName" then some u.fullName else none,
   if fields.contains "email" then some u.email else none,
   if fields.contains "password" then some u.password else none,
   if fields.contains "imagePath" then u.imagePath else none⟩

/-- `GET /getAll`: no validators; returns every stored user under the
projection `"fullName email password "`, with status 200. -/
def getAllHandler (db : List UserDoc) : Nat × List ProjectedUser :=
  (200, db.map (projectUser getAllFields))

/-! ### Upload middleware (`src/middleware/upload.js`) and `POST /uploadImage` -/

/-- The multipart file part of an upload request, as multer sees it. -/
structure FileMeta where
  mimetype : String
  sizeBytes : Nat
  originalname : String
deriving DecidableEq

/-- A file multer has written to disk. -/
structure StoredFile where
  path : String
  filename : String
deriving DecidableEq

/-- `/jpeg|jpg|png|gif/.test(s)`: substring test. -/
def fileTypeTest (s : String) : Bool :=
  strIncludes s "jpeg" || strIncludes s "jpg" || strIncludes s "png" || strIncludes s "gif"

/-- The multer `fileFilter`: both `extname` and `mimetype` are computed by
testing `file.mimetype` (the source tests the mimetype twice and never the
extension); the file is accepted when both tests pass. -/
def fileFilterAccepts (f : FileMeta) : Bool :=
  let extname := fileTypeTest f.mimetype
  let mimetype := fileTypeTest f.mimetype
  extname && mimetype

/-- `limits: { fileSize: 5 * 1024 * 1024 }`. -/
def fileSizeLimit : Nat := 5 * 1024 * 1024

/-- Error message thrown by the `fileFilter`. -/
def invalidFormatMsg : String := "Invalid file format. Only JPEG, PNG, and GIF are allowed."

/-- Message of multer's size-limit error (`LIMIT_FILE_SIZE`). -/
def fileTooLargeMsg : String := "File too large"

/-- `upload.single("image")`: with no file part the middleware succeeds and
`req.file` stays undefined; with a file it runs the filter, enforces the
size limit, and stores the file under `images/` with a timestamp-derived
name (`now` is the decimal string of `Date.now()`). -/
def multerSingle (now : String) : Option FileMeta → Except String (Option StoredFile)
  | none => Except.ok none
  | some f =>
    if !fileFilterAccepts f then Except.error invalidFormatMsg
    else if decide (fileSizeLimit < f.sizeBytes) then Except.error fileTooLargeMsg
    else
      let name := now ++ "-" ++ f.originalname
      Except.ok (some ⟨"images/" ++ name, name⟩)

/-- The upload route declares no validators, so `validationResult(req)`
inspects an empty list of recorded violations. -/
def uploadImageValidators : List String := []

/-- Message of the TypeError raised by reading `req.file.path` when
`req.file` is undefined. -/
def typeErrorPathMsg : String :=
  "Cannot read properties of undefined (reading \x27path\x27)"

/-- The route's catch clause: errors whose message contains
`"Invalid file format"` become 400 with that message; every other error
becomes 500 `"Server error."`.  Only errors thrown inside the handler body
reach this clause; multer middleware errors bypass it (see
`frameworkDefault500`), so its 400 branch is unreachable from the
middleware. -/
def uploadCatch (msg : String) : Response :=
  if strIncludes msg "Invalid file format" then ⟨400, msg⟩ else ⟨500, "Server error."⟩

/-- Modelled from the spec: the HTTP server/router framework is an external
black box.  When the upload middleware fails it passes its error to `next`,
and since the application registers no error-handling middleware the
framework's default error handler answers the request with status 500 (its
body is the framework's own rendering of the error, modelled here as the
error message); the route handler and its catch never run. -/
def frameworkDefault500 (msg : String) : Response := ⟨500, msg⟩

/-- JavaScript truthiness of `user.imagePath` (`null` and `""` are falsy). -/
def truthyImagePath : Option String → Bool
  | none => false
  | some s => !s.isEmpty

/-- An upload request: the `email` form field and the optional file part. -/
structure UploadRequest where
  email : String
  file : Option FileMeta
deriving DecidableEq

/-- `POST /uploadImage`: the multer stage runs first; when it fails it calls
`next(err)`, so the request is answered by the framework's default error
handler (`frameworkDefault500`) and the route handler never runs.  On
success the handler checks the (empty) validation result, looks the user up
by the submitted email verbatim, rejects when `imagePath` is truthy,
dereferences `req.file.path` (a TypeError when no file was sent, raised
inside the try and so answered by the route's own catch `uploadCatch`) and
otherwise records the stored path and saves; the password path is untouched,
so the pre-save hook does not rehash. -/
def uploadImageHandler (hash : String → String) (r : UploadRequest) (db : List UserDoc)
    (now : String) : Response × List UserDoc :=
  match multerSingle now r.file with
  | Except.error msg => (frameworkDefault500 msg, db)
  | Except.ok stored =>
    if !uploadImageValidators.isEmpty then (⟨400, "Validation failed"⟩, db)
    else
      match findOne db r.email with
      | none => (⟨404, "User not found."⟩, db)
      | some user =>
        if truthyImagePath user.imagePath then
          (⟨400, "Image already exists for this user."⟩, db)
        else
          match stored with
          | none => (uploadCatch typeErrorPathMsg, db)
          | some sf =>
            let updated := { user with imagePath := some sf.path }
            (⟨201, "Image uploaded successfully."⟩,
             saveExistingUser hash db r.email false updated)

/-! ### Concrete instances used by the closed statements below -/

/-- A concrete stand-in for the bcrypt hash. -/
def wHash : String → String := fun s => "h" ++ s

/-- A stored user without an image. -/
def wUser : UserDoc := ⟨"John Doe", "a@b.com", "old", none⟩

/-- A stored user whose image is already set. -/
def wUserImg : UserDoc := ⟨"John Doe", "a@b.com", "old", some "images/5-x.png"⟩

/-- A small PNG upload. -/
def wPng : FileMeta := ⟨"image/png", 1024, "x.png"⟩

/-- A 6 MiB PNG upload. -/
def wBigPng : FileMeta := ⟨"image/png", 6291456, "x.png"⟩

/-- A small PDF upload (content-type outside JPEG/PNG/GIF). -/
def wPdf : FileMeta := ⟨"application/pdf", 1024, "x.pdf"⟩

/-- A valid create payload with a lowercase email. -/
def wCreate : CreateRequest := ⟨"a@b.com", "John Doe", "Password1!"⟩

/-- The same valid payload with a mixed-case email. -/
def wCreateUpper : CreateRequest := ⟨"A@B.com", "John Doe", "Password1!"⟩

/-- A valid edit payload. -/
def wEdit : EditRequest := ⟨"a@b.com", "Jane Doe", "Secret123$"⟩

/-- The store after creating `wCreateUpper` in an empty store. -/
def c2store : List UserDoc := (createHandler wHash wCreateUpper []).2

/-! ### Shared lemmas -/

theorem findOne_none_iff (db : List UserDoc) (e : String) :
    findOne db e = none ↔ ∀ u ∈ db, u.email ≠ e := by
  simp [findOne, List.find?_eq_none]

theorem findOne_isSome_of_mem {db : List UserDoc} {u : UserDoc} {e : String}
    (hu : u ∈ db) (he : u.email = e) : ∃ w, findOne db e = some w := by
  have h : (db.find? (fun v => v.email == e)).isSome := by
    rw [List.find?_isSome]
    exact ⟨u, hu, by simp [he]⟩
  exact Option.isSome_iff_exists.mp h

/-! ### C1: the password is bcrypt-hashed twice on create and on edit -/

/-- C1: every create request that reaches persistence stores
`hash (hash plaintext)` — the handler hashes once, and the pre-save hook,
seeing the password path of the new document as modified, hashes the
already-hashed value again; every edit request that reaches persistence
does the same double application. -/
theorem claim1_double_hash (hash : String → String) (rc : CreateRequest) (re : EditRequest)
    (dbc dbe : List UserDoc) (u : UserDoc)
    (hc : createValidationPasses rc = true)
    (hfresh : findOne dbc (normalizeEmail rc.email) = none)
    (he : editValidationPasses re = true)
    (hfound : findOne dbe re.email = some u) :
    (createHandler hash rc dbc).2 =
      dbc ++ [⟨rc.fullName, normalizeEmail rc.email, hash (hash rc.password), none⟩] ∧
    (editHandler hash re dbe).2 =
      replaceFirst dbe re.email ⟨re.fullName, u.email, hash (hash re.password), u.imagePath⟩ := by
  constructor
  · simp [createHandler, hc, hfresh, saveNewUser, preSaveHook]
  · simp [editHandler, he, hfound, saveExistingUser, preSaveHook]

/-- Witness for C1 at a concrete create, a concrete edit and a concrete hash. -/
theorem claim1_double_hash_witness :
    createValidationPasses wCreate = true ∧
    findOne ([] : List UserDoc) (normalizeEmail wCreate.email) = none ∧
    editValidationPasses wEdit = true ∧
    findOne [wUser] wEdit.email = some wUser ∧
    ((createHandler wHash wCreate []).2 =
      [] ++ [⟨wCreate.fullName, normalizeEmail wCreate.email, wHash (wHash wCreate.password), none⟩] ∧
     (editHandler wHash wEdit [wUser]).2 =
      replaceFirst [wUser] wEdit.email
        ⟨wEdit.fullName, wUser.email, wHash (wHash wEdit.password), wUser.imagePath⟩) :=
  ⟨by decide, by decide, by decide, by decide,
   claim1_double_hash wHash wCreate wEdit [] [wUser] wUser
     (by decide) (by decide) (by decide) (by decide)⟩

/-! ### C7: edit on a missing email -/

/-- C7 as frozen fails on invalid payloads, which get 400 before the lookup;
this concrete edit names no stored user yet is answered 400, not 404. -/
theorem claim7_counterexample :
    (editHandler wHash ⟨"a@b.com", "John Doe", "weakpass"⟩ []).1 = ⟨400, "Validation failed"⟩ ∧
    (editHandler wHash ⟨"a@b.com", "John Doe", "weakpass"⟩ []).1.status ≠ 404 := by
  decide

/-- C7 (amended): for every edit request whose email matches no stored user
the store is unchanged; the response is 404 when the payload passes the
fullName/password validators and 400 `Validation failed` otherwise. -/
theorem claim7_edit_missing (hash : String → String) (r : EditRequest) (db : List UserDoc)
    (hnone : findOne db r.email = none) :
    (editHandler hash r db).2 = db ∧
    (editValidationPasses r = true → (editHandler hash r db).1 = ⟨404, "User not found"⟩) ∧
    (editValidationPasses r = false → (editHandler hash r db).1 = ⟨400, "Validation failed"⟩) := by
  cases hv : editValidationPasses r <;> simp [editHandler, hv, hnone]

/-- Witness for C7 on the empty store with a valid payload. -/
theorem claim7_edit_missing_witness :
    findOne ([] : List UserDoc) wEdit.email = none ∧
    editValidationPasses wEdit = true ∧
    (editHandler wHash wEdit []).2 = [] ∧
    (editHandler wHash wEdit []).1 = ⟨404, "User not found"⟩ :=
  ⟨by decide, by decide,
   (claim7_edit_missing wHash wEdit [] (by decide)).1,
   (claim7_edit_missing wHash wEdit [] (by decide)).2.1 (by decide)⟩

/-! ### C10: uploadImage with no file part -/

/-- C10: an uploadImage request with no file part naming an existing user
whose imagePath is null dereferences the undefined `req.file`; the TypeError
message does not contain `Invalid file format`, so the catch answers 500
`Server error.`; the route's validationResult check is vacuous because the
route declares no validators. -/
theorem claim10_missing_file (hash : String → String) (e now : String) (db : List UserDoc)
    (u : UserDoc) (hfind : findOne db e = some u) (hnull : u.imagePath = none) :
    uploadImageHandler hash ⟨e, none⟩ db now = (⟨500, "Server error."⟩, db) ∧
    uploadImageValidators = [] ∧
    strIncludes typeErrorPathMsg "Invalid file format" = false := by
  refine ⟨?_, rfl, by decide⟩
  simp [uploadImageHandler, multerSingle, uploadImageValidators, hfind, hnull,
        truthyImagePath, uploadCatch, show strIncludes typeErrorPathMsg "Invalid file format" = false by decide]

/-- Witness for C10: a stored user without an image, no file part. -/
theorem claim10_missing_file_witness :
    findOne [wUser] "a@b.com" = some wUser ∧
    wUser.imagePath = none ∧
    uploadImageHandler wHash ⟨"a@b.com", none⟩ [wUser] "5" = (⟨500, "Server error."⟩, [wUser]) :=
  ⟨by decide, by decide,
   (claim10_missing_file wHash "a@b.com" "5" [wUser] wUser (by decide) (by decide)).1⟩

/-! ### C2: email case-normalization -/

/-- C2 as frozen fails: a user created with email `A@B.com` is stored under
the normalized form `a@b.com`, and a later edit supplying `A@B.com` answers
404 because the edit route does not normalize the email before the lookup. -/
theorem claim2_counterexample :
    (createHandler wHash wCreateUpper []).1.status = 201 ∧
    (editHandler wHash ⟨"A@B.com", "Jane Doe", "Password1!"⟩ c2store).1 =
      ⟨404, "User not found"⟩ := by
  decide

/-- C2 (amended): only create and delete normalize the email; edit and
uploadImage use the submitted email verbatim, so after creating `A@B.com`
(stored as `a@b.com`) a mixed-case edit or upload answers 404 while the
exact lowercase form succeeds, and a mixed-case delete still succeeds. -/
theorem claim2_normalization :
    (createHandler wHash wCreateUpper []).2 =
      [⟨"John Doe", "a@b.com", wHash (wHash "Password1!"), none⟩] ∧
    (deleteHandler ⟨"A@b.CoM"⟩ c2store).1.status = 200 ∧
    (deleteHandler ⟨"A@b.CoM"⟩ c2store).2 = [] ∧
    (editHandler wHash ⟨"A@B.com", "Jane Doe", "Password1!"⟩ c2store).1.status = 404 ∧
    (editHandler wHash ⟨"a@b.com", "Jane Doe", "Password1!"⟩ c2store).1.status = 200 ∧
    (uploadImageHandler wHash ⟨"A@B.com", some wPng⟩ c2store "5").1.status = 404 ∧
    (uploadImageHandler wHash ⟨"a@b.com", some wPng⟩ c2store "5").1.status = 201 := by
  decide

/-! ### C3: duplicate create -/

/-- C3 as frozen fails on payloads that fail validation: this create names
an already-stored email but answers 400 `Validation failed`, not
`Email already registered` (the fullName contains digits). -/
theorem claim3_counterexample :
    (createHandler wHash ⟨"a@b.com", "John123", "Password1!"⟩ [wUser]).1 =
      ⟨400, "Validation failed"⟩ ∧
    (createHandler wHash ⟨"a@b.com", "John123", "Password1!"⟩ [wUser]).1.body ≠
      "Email already registered" := by
  decide

/-- C3 (amended): for every create request whose normalized email equals the
email of an already-stored user, the response has status 400 and the store
is unchanged; the message is `Email already registered` when the payload
passes the create validators, and `Validation failed` otherwise. -/
theorem claim3_duplicate_create (hash : String → String) (r : CreateRequest)
    (db : List UserDoc) (u : UserDoc)
    (hu : u ∈ db) (he : u.email = normalizeEmail r.email) :
    (createHandler hash r db).1.status = 400 ∧
    (createHandler hash r db).2 = db ∧
    (createValidationPasses r = true →
      (createHandler hash r db).1 = ⟨400, "Email already registered"⟩) := by
  cases hv : createValidationPasses r
  · simp [createHandler, hv]
  · obtain ⟨w, hw⟩ := findOne_isSome_of_mem hu he
    simp [createHandler, hv, hw]

/-- Witness for C3: a mixed-case duplicate of a stored lowercase email. -/
theorem claim3_duplicate_create_witness :
    wUser ∈ [wUser] ∧
    wUser.email = normalizeEmail wCreateUpper.email ∧
    createValidationPasses wCreateUpper = true ∧
    (createHandler wHash wCreateUpper [wUser]).1 = ⟨400, "Email already registered"⟩ ∧
    (createHandler wHash wCreateUpper [wUser]).2 = [wUser] :=
  ⟨by decide, by decide, by decide,
   (claim3_duplicate_create wHash wCreateUpper [wUser] wUser (by decide) (by decide)).2.2
     (by decide),
   (claim3_duplicate_create wHash wCreateUpper [wUser] wUser (by decide) (by decide)).2.1⟩

/-! ### C4: upload middleware failures -/

/-- C4 as frozen fails: a 6 MiB upload with an accepted content-type is not
answered 400 — the multer size-limit error goes to `next(err)` and the
framework's default handler answers 500, bypassing the route's catch; an
invalid-format upload is answered 500 the same way, so middleware errors are
not mapped to 400 at all. -/
theorem claim4_counterexample :
    (uploadImageHandler wHash ⟨"a@b.com", some wBigPng⟩ [wUser] "5").1.status = 500 ∧
    (uploadImageHandler wHash ⟨"a@b.com", some wBigPng⟩ [wUser] "5").1.status ≠ 400 ∧
    (uploadImageHandler wHash ⟨"a@b.com", some wPdf⟩ [wUser] "5").1.status = 500 ∧
    (uploadImageHandler wHash ⟨"a@b.com", some wPdf⟩ [wUser] "5").1.status ≠ 400 := by
  decide

/-- C4 (amended): the upload middleware accepts a file iff its declared
content-type passes the JPEG/PNG/GIF test and its size is at most 5 MiB; but
both of its errors are passed to the framework, whose default error handler
answers 500 without touching the store — neither the invalid-format nor the
size-limit error is mapped to 400, and in particular a 6 MiB file is
rejected with 500 regardless of content-type.  The route's catch maps only
in-handler errors, and only those whose message contains
`Invalid file format` to 400, which no middleware error can reach. -/
theorem claim4_upload_errors (hash : String → String) (e now : String) (f : FileMeta)
    (db : List UserDoc) :
    ((∃ v, multerSingle now (some f) = Except.ok v) ↔
      (fileFilterAccepts f = true ∧ f.sizeBytes ≤ fileSizeLimit)) ∧
    (fileFilterAccepts f = false →
      (uploadImageHandler hash ⟨e, some f⟩ db now).1.status = 500 ∧
      (uploadImageHandler hash ⟨e, some f⟩ db now).2 = db) ∧
    (fileFilterAccepts f = true → fileSizeLimit < f.sizeBytes →
      (uploadImageHandler hash ⟨e, some f⟩ db now).1.status = 500 ∧
      (uploadImageHandler hash ⟨e, some f⟩ db now).2 = db) := by
  refine ⟨?_, ?_, ?_⟩
  · cases hf : fileFilterAccepts f
    · simp [multerSingle, hf]
    · by_cases hs : fileSizeLimit < f.sizeBytes
      all_goals simp [multerSingle, hf, hs]
      all_goals omega
  · intro hf
    simp [uploadImageHandler, multerSingle, hf, frameworkDefault500]
  · intro hf hs
    simp [uploadImageHandler, multerSingle, hf, hs, frameworkDefault500]

/-- Witness for C4: a PDF and a 6 MiB PNG are both answered 500 with the
store unchanged. -/
theorem claim4_upload_errors_witness :
    fileFilterAccepts wPdf = false ∧
    fileFilterAccepts wBigPng = true ∧
    fileSizeLimit < wBigPng.sizeBytes ∧
    ((uploadImageHandler wHash ⟨"a@b.com", some wPdf⟩ [wUser] "5").1.status = 500 ∧
     (uploadImageHandler wHash ⟨"a@b.com", some wPdf⟩ [wUser] "5").2 = [wUser]) ∧
    ((uploadImageHandler wHash ⟨"a@b.com", some wBigPng⟩ [] "5").1.status = 500 ∧
     (uploadImageHandler wHash ⟨"a@b.com", some wBigPng⟩ [] "5").2 = []) :=
  ⟨by decide, by decide, by decide,
   (claim4_upload_errors wHash "a@b.com" "5" wPdf [wUser]).2.1 (by decide),
   (claim4_upload_errors wHash "a@b.com" "5" wBigPng []).2.2 (by decide) (by decide)⟩

/-! ### C5: imagePath transitions at most once -/

/-- C5 as frozen fails: a later uploadImage request for a user whose image
is set is answered 500 when its file is oversized — the middleware error
goes to the framework's default handler, preempting the
`Image already exists for this user.` 400. -/
theorem claim5_counterexample :
    truthyImagePath wUserImg.imagePath = true ∧
    (uploadImageHandler wHash ⟨"a@b.com", some wBigPng⟩ [wUserImg] "7").1.status = 500 ∧
    (uploadImageHandler wHash ⟨"a@b.com", some wBigPng⟩ [wUserImg] "7").1 ≠
      ⟨400, "Image already exists for this user."⟩ := by
  decide

/-- C5 (amended): a created user starts with a null imagePath; a first
successful upload sets it to the stored file path; and for a user whose
imagePath is set every later uploadImage request leaves the store unchanged
and is answered 400 `Image already exists for this user.` whenever it passes
the upload middleware, while a middleware-rejected later request is answered
by the framework's default 500, also without altering the store. -/
theorem claim5_image_once (hash : String → String) (rc : CreateRequest)
    (r1 r2 : UploadRequest) (f : FileMeta) (dbc db1 db2 : List UserDoc)
    (u1 u2 : UserDoc) (now1 now2 : String) :
    (createValidationPasses rc = true → findOne dbc (normalizeEmail rc.email) = none →
      (createHandler hash rc dbc).2 =
        dbc ++ [⟨rc.fullName, normalizeEmail rc.email, hash (hash rc.password), none⟩]) ∧
    (findOne db1 r1.email = some u1 → u1.imagePath = none →
      r1.file = some f → fileFilterAccepts f = true → f.sizeBytes ≤ fileSizeLimit →
      uploadImageHandler hash r1 db1 now1 =
        (⟨201, "Image uploaded successfully."⟩,
         replaceFirst db1 r1.email
           { u1 with imagePath := some ("images/" ++ (now1 ++ "-" ++ f.originalname)) })) ∧
    (findOne db2 r2.email = some u2 → truthyImagePath u2.imagePath = true →
      ((uploadImageHandler hash r2 db2 now2).2 = db2 ∧
       (∀ s, multerSingle now2 r2.file = Except.ok s →
         (uploadImageHandler hash r2 db2 now2).1 =
           ⟨400, "Image already exists for this user."⟩) ∧
       (∀ msg, multerSingle now2 r2.file = Except.error msg →
         (uploadImageHandler hash r2 db2 now2).1.status = 500))) := by
  refine ⟨?_, ?_, ?_⟩
  · intro hc hfresh
    simp [createHandler, hc, hfresh, saveNewUser, preSaveHook]
  · intro hfind hnull hfile hf hs
    simp [uploadImageHandler, hfile, multerSingle, hf, Nat.not_lt.mpr hs,
      uploadImageValidators, hfind, hnull, truthyImagePath,
      saveExistingUser, preSaveHook]
  · intro hfind himg
    cases hm : multerSingle now2 r2.file with
    | error msg =>
      refine ⟨by simp [uploadImageHandler, hm], ?_, ?_⟩
      · intro s hs
        simp at hs
      · intro msg2 hmsg2
        simp [uploadImageHandler, hm, frameworkDefault500]
    | ok stored =>
      refine ⟨?_, ?_, ?_⟩
      · simp [uploadImageHandler, hm, uploadImageValidators, hfind, himg]
      · intro s hs
        simp [uploadImageHandler, hm, uploadImageValidators, hfind, himg]
      · intro msg hmsg
        simp at hmsg

/-- Witness for C5: create, a first upload that sets the path, a second
upload attempt answered 400 with the store unchanged, and a
middleware-rejected second attempt answered 500. -/
theorem claim5_image_once_witness :
    createValidationPasses wCreate = true ∧
    findOne ([] : List UserDoc) (normalizeEmail wCreate.email) = none ∧
    findOne [wUser] "a@b.com" = some wUser ∧
    wUser.imagePath = none ∧
    fileFilterAccepts wPng = true ∧
    wPng.sizeBytes ≤ fileSizeLimit ∧
    findOne [wUserImg] "a@b.com" = some wUserImg ∧
    truthyImagePath wUserImg.imagePath = true ∧
    multerSingle "7" (some wPng) = Except.ok (some ⟨"images/7-x.png", "7-x.png"⟩) ∧
    ((createHandler wHash wCreate []).2 =
      [] ++ [⟨wCreate.fullName, normalizeEmail wCreate.email, wHash (wHash wCreate.password), none⟩] ∧
     uploadImageHandler wHash ⟨"a@b.com", some wPng⟩ [wUser] "5" =
      (⟨201, "Image uploaded successfully."⟩,
       replaceFirst [wUser] "a@b.com"
         { wUser with imagePath := some ("images/" ++ ("5" ++ "-" ++ wPng.originalname)) }) ∧
     (uploadImageHandler wHash ⟨"a@b.com", some wPng⟩ [wUserImg] "7").2 = [wUserImg] ∧
     (uploadImageHandler wHash ⟨"a@b.com", some wPng⟩ [wUserImg] "7").1 =
       ⟨400, "Image already exists for this user."⟩ ∧
     multerSingle "7" (some wBigPng) = Except.error fileTooLargeMsg ∧
     (uploadImageHandler wHash ⟨"a@b.com", some wBigPng⟩ [wUserImg] "7").1.status = 500) :=
  ⟨by decide, by decide, by decide, by decide, by decide, by decide, by decide, by decide,
   by rfl,
   (claim5_image_once wHash wCreate ⟨"a@b.com", some wPng⟩ ⟨"a@b.com", some wPng⟩ wPng
      [] [wUser] [wUserImg] wUser wUserImg "5" "7").1 (by decide) (by decide),
   (claim5_image_once wHash wCreate ⟨"a@b.com", some wPng⟩ ⟨"a@b.com", some wPng⟩ wPng
      [] [wUser] [wUserImg] wUser wUserImg "5" "7").2.1
     (by decide) (by decide) (by decide) (by decide) (by decide),
   ((claim5_image_once wHash wCreate ⟨"a@b.com", some wPng⟩ ⟨"a@b.com", some wPng⟩ wPng
      [] [wUser] [wUserImg] wUser wUserImg "5" "7").2.2 (by decide) (by decide)).1,
   ((claim5_image_once wHash wCreate ⟨"a@b.com", some wPng⟩ ⟨"a@b.com", some wPng⟩ wPng
      [] [wUser] [wUserImg] wUser wUserImg "5" "7").2.2 (by decide) (by decide)).2.1
     (some ⟨"images/7-x.png", "7-x.png"⟩) (by rfl),
   by rfl,
   ((claim5_image_once wHash wCreate ⟨"a@b.com", some wPng⟩ ⟨"a@b.com", some wBigPng⟩ wPng
      [] [wUser] [wUserImg] wUser wUserImg "5" "7").2.2 (by decide) (by decide)).2.2
     fileTooLargeMsg (by rfl)⟩

/-! ### C6: successful create -/

/-- C6: a valid create payload with a fresh (normalized) email is answered
201, exactly one stored document carries that email afterwards, and its
stored password differs from the submitted plaintext. -/
theorem claim6_create_fresh (hash : String → String) (r : CreateRequest) (db : List UserDoc)
    (hv : createValidationPasses r = true)
    (hfresh : findOne db (normalizeEmail r.email) = none)
    (hh : hash (hash r.password) ≠ r.password) :
    (createHandler hash r db).1 = ⟨201, "User created successfully"⟩ ∧
    ((createHandler hash r db).2.filter
        (fun v => v.email == normalizeEmail r.email)).length = 1 ∧
    (∀ v ∈ (createHandler hash r db).2,
        v.email = normalizeEmail r.email → v.password ≠ r.password) := by
  have hnone : ∀ u ∈ db, u.email ≠ normalizeEmail r.email := (findOne_none_iff db _).1 hfresh
  have hstore : (createHandler hash r db).2 =
      db ++ [⟨r.fullName, normalizeEmail r.email, hash (hash r.password), none⟩] := by
    simp [createHandler, hv, hfresh, saveNewUser, preSaveHook]
  refine ⟨by simp [createHandler, hv, hfresh], ?_, ?_⟩
  · rw [hstore, List.filter_append]
    have hdb : db.filter (fun v => v.email == normalizeEmail r.email) = [] := by
      rw [List.filter_eq_nil_iff]
      intro u hu
      simpa using hnone u hu
    simp [hdb]
  · rw [hstore]
    intro v hvmem hvemail
    rcases List.mem_append.1 hvmem with hmem | hmem
    · exact absurd hvemail (hnone v hmem)
    · have : v = ⟨r.fullName, normalizeEmail r.email, hash (hash r.password), none⟩ := by
        simpa using hmem
      rw [this]
      exact hh

/-- Witness for C6 at a concrete payload on the empty store. -/
theorem claim6_create_fresh_witness :
    createValidationPasses wCreate = true ∧
    findOne ([] : List UserDoc) (normalizeEmail wCreate.email) = none ∧
    wHash (wHash wCreate.password) ≠ wCreate.password ∧
    (createHandler wHash wCreate []).1 = ⟨201, "User created successfully"⟩ ∧
    ((createHandler wHash wCreate []).2.filter
        (fun v => v.email == normalizeEmail wCreate.email)).length = 1 :=
  ⟨by decide, by decide, by decide,
   (claim6_create_fresh wHash wCreate [] (by decide) (by decide) (by decide)).1,
   (claim6_create_fresh wHash wCreate [] (by decide) (by decide) (by decide)).2.1⟩

/-! ### C8: getAll projection -/

/-- C8: getAll performs no validation and answers 200 with, for every stored
user, exactly the fullName, email and password fields — the password is in
the projection string, which overrides the schema's `select: false`. -/
theorem claim8_getAll_projection (db : List UserDoc) (u : UserDoc) :
    getAllHandler db = (200, db.map (projectUser getAllFields)) ∧
    getAllFields = ["fullName", "email", "password"] ∧
    projectUser getAllFields u = ⟨some u.fullName, some u.email, some u.password, none⟩ ∧
    fieldSelectByDefault "password" = false := by
  refine ⟨rfl, by decide, ?_, by decide⟩
  rw [projectUser, show getAllFields = ["fullName", "email", "password"] from by decide]
  simp

/-! ### C9: the password strength rule -/

/-- C9: the password validator shared by create and edit accepts a password
iff it has length at least 8 and contains an uppercase letter, a lowercase
letter, a digit and a symbol; `password1` is rejected — a create or edit
carrying it is answered 400 before any storage interaction — and
`Password1!` is accepted. -/
theorem claim9_password_rule (pw : String) (hash : String → String) (db : List UserDoc) :
    (isStrongPassword pwOptions pw = true ↔
      (8 ≤ pw.length ∧ (∃ c ∈ pw.toList, c.isUpper = true) ∧
       (∃ c ∈ pw.toList, c.isLower = true) ∧ (∃ c ∈ pw.toList, c.isDigit = true) ∧
       (∃ c ∈ pw.toList, isPwSymbol c = true))) ∧
    isStrongPassword pwOptions "password1" = false ∧
    isStrongPassword pwOptions "Password1!" = true ∧
    createHandler hash ⟨"a@b.com", "John Doe", "password1"⟩ db =
      (⟨400, "Validation failed"⟩, db) ∧
    editHandler hash ⟨"a@b.com", "John Doe", "password1"⟩ db =
      (⟨400, "Validation failed"⟩, db) := by
  have hcount : ∀ (p : Char → Bool) (l : List Char),
      1 ≤ (l.filter p).length ↔ ∃ c ∈ l, p c = true := by
    intro p l
    rw [Nat.one_le_iff_ne_zero, Ne, List.length_eq_zero, List.filter_eq_nil_iff]
    push_neg
    simp
  refine ⟨?_, by decide, by decide, ?_, ?_⟩
  · simp only [isStrongPassword, countClass, pwOptions, Bool.and_eq_true, decide_eq_true_eq]
    rw [hcount, hcount, hcount, hcount, String.toList]
    tauto
  · simp [createHandler,
      show createValidationPasses ⟨"a@b.com", "John Doe", "password1"⟩ = false from by decide]
  · simp [editHandler,
      show editValidationPasses ⟨"a@b.com", "John Doe", "password1"⟩ = false from by decide]

end UserApi
